import Mathlib

/-!
Verification of the OpenTTD macOS crash-log handler
(`src/os/macosx/crashlog_osx.cpp`) against its specification.

The C++ file is shallowly embedded below:
* the manual frame-pointer stack walk of `CrashLogOSX::LogStacktrace`
  becomes `walkFrames`, a fuel-bounded function over an abstract memory
  `mem : Nat → Nat` (reading address `0` plays the role of `nullptr`);
* the per-frame symbol resolution and line rendering become
  `makeTraceLine` over an abstract `dladdr` result (`DlInfo`) and an
  abstract demangler `String → Option String` (`none` = failure);
* the bounded `seprintf`-style report composition becomes
  `seprintfAppend` / `fillCrashLog` on `List Char` with an explicit
  capacity;
* `CrashLogOSX::MakeCrashLog`, `DisplayCrashDialog` and `HandleCrash`
  become trace-producing functions over an environment that fixes the
  outcome of each external collaborator
  (`GamelogTestEmergency`, `SaveloadCrashWithMissingNewGRFs`,
  `WriteCrashLog`, `WriteSavegame`, `WriteScreenshot`, the video
  driver query, `ShowMacDialog`).
-/

/-- MAX_STACK_FRAMES from crashlog_osx.cpp line 41. -/
def MAX_STACK_FRAMES : Nat := 64

/-- IS_ALIGNED for the non-i386 case (crashlog_osx.cpp line 31):
`((uintptr_t)(addr) & 0xf) == 0`. -/
def alignedLP64 (a : Nat) : Bool := a % 16 == 0

/-- IS_ALIGNED for the i386 case (crashlog_osx.cpp line 29):
`((uintptr_t)(addr) & 0xf) == 8`. -/
def alignedI386 (a : Nat) : Bool := a % 16 == 8

/-- The frame-pointer walk loop of `CrashLogOSX::LogStacktrace`
(crashlog_osx.cpp lines 103-149), abstracted over memory, the
platform alignment predicate and the word size `ws` (the return
address sits one word above the frame pointer, `frame[1]`; the link
to the previous frame is `frame[0]`).  The fuel argument is the
remaining number of loop iterations (`i < MAX_STACK_FRAMES`); the
result is the list of emitted return addresses in order. -/
def walkFrames (mem : Nat → Nat) (aligned : Nat → Bool) (ws : Nat) :
    Nat → Nat → List Nat
  | 0, _ => []
  | _fuel + 1, 0 => []
  | fuel + 1, frame =>
      let ip := mem (frame + ws)
      if ip = 0 then []
      else
        let next := mem frame
        if next ≤ frame ∨ aligned next = false then [ip]
        else ip :: walkFrames mem aligned ws fuel next

/-- A synthetic cyclic frame chain: four frames at 16, 32, 48, 64 with
return addresses 1001..1004; the link of frame 4 points back at
frame 2 (address 32), so the chain is cyclic. -/
def cycleMem (a : Nat) : Nat :=
  if a = 16 then 32
  else if a = 24 then 1001
  else if a = 32 then 48
  else if a = 40 then 1002
  else if a = 48 then 64
  else if a = 56 then 1003
  else if a = 64 then 32
  else if a = 72 then 1004
  else 0

/-- The bounded append primitive: one `seprintf(buffer, last, ...)` call
writing `s` at the current cursor of a buffer whose total capacity is
`cap` characters.  `seprintf` never writes past `last` and silently
drops the remainder, so the whole content is the truncation of the
unbounded concatenation. -/
def seprintfAppend (cap : Nat) (acc s : List Char) : List Char :=
  (acc ++ s).take cap

/-- Modelled from the spec: `CrashLog::FillCrashLog` is declared in
`crashlog.h` but its body is not part of the analysed source; per spec
section 4.5 it is an ordered composition of text sections into one
bounded buffer where every write goes through the bounded-append
primitive. -/
def fillCrashLog (cap : Nat) (sections : List (List Char)) : List Char :=
  sections.foldl (fun acc s => seprintfAppend cap acc s) []

/-- The result of a successful `dladdr` call (a `Dl_info` record as used
in crashlog_osx.cpp lines 115-141): the containing image path
`dli_fname`, the nearest symbol name `dli_sname` and its start address
`dli_saddr`; each field may be a null pointer, modelled as `none`. -/
structure DlInfo where
  fname : Option (List Char)
  sname : Option (List Char)
  saddr : Option Nat
deriving DecidableEq

/-- The suffix of `l` after its last slash character; this is what the
`strrchr(dli.dli_fname, '/')` logic of crashlog_osx.cpp lines 121-126
computes: the part after the last '/' when one exists, the whole string
otherwise. -/
def strrchrSuffix (l : List Char) : List Char :=
  (l.reverse.takeWhile (fun c => c ≠ '/')).reverse

/-- Reduction of an integer into the value range of a signed 64-bit
machine word; `(intptr_t)ip - (intptr_t)saddr` in crashlog_osx.cpp
line 137 produces this value of the mathematical difference. -/
def wrapSigned64 (z : Int) : Int := (z + 2 ^ 63) % 2 ^ 64 - 2 ^ 63

/-- The signed offset printed with `%ld` in crashlog_osx.cpp line 138:
`(intptr_t)ip - (intptr_t)dli.dli_saddr`. -/
def frameOffset (ip saddr : Nat) : Int :=
  wrapSigned64 ((ip : Int) - (saddr : Int))

/-- One rendered stack-trace line of `CrashLogOSX::LogStacktrace`
(crashlog_osx.cpp lines 112-142), keeping the printed fields
structured: the running index, the displayed image name, the address,
and — when symbol information is available — the displayed function
name together with the signed offset. -/
structure TraceLine where
  index : Nat
  moduleName : List Char
  address : Nat
  symbol : Option (List Char × Int)
deriving DecidableEq

/-- The per-frame rendering of crashlog_osx.cpp lines 112-142:
`resolve` is `dladdr` (`none` when it returns 0), `demangle` is
`abi::__cxa_demangle` (`none` when it fails and a null pointer comes
back). -/
def makeTraceLine (resolve : Nat → Option DlInfo)
    (demangle : List Char → Option (List Char)) (i ip : Nat) : TraceLine :=
  let dl := resolve ip
  let fname : List Char :=
    match dl with
    | some dli =>
        match dli.fname with
        | some f => strrchrSuffix f
        | none => "???".toList
    | none => "???".toList
  let symbol : Option (List Char × Int) :=
    match dl with
    | some dli =>
        match dli.sname, dli.saddr with
        | some sn, some sa =>
            let func_name :=
              match demangle sn with
              | some d => d
              | none => sn
            some (func_name, frameOffset ip sa)
        | _, _ => none
    | none => none
  ⟨i, fname, ip, symbol⟩

/-- The full stack-trace section: the walked return addresses rendered
one line per frame with the running index `[%02d]` starting at 0. -/
def logStacktraceLines (mem : Nat → Nat) (aligned : Nat → Bool) (ws : Nat)
    (resolve : Nat → Option DlInfo)
    (demangle : List Char → Option (List Char)) (start : Nat) :
    List TraceLine :=
  (walkFrames mem aligned ws MAX_STACK_FRAMES start).enum.map
    (fun p => makeTraceLine resolve demangle p.1 p.2)

/-- Fixed outcome of the three artifact-writing collaborators of
`CrashLogOSX::MakeCrashLog` (crashlog_osx.cpp lines 177-193): for each
of `WriteCrashLog`, `WriteSavegame` and `WriteScreenshot`, whether the
call returns true and the path it writes into the supplied filename
buffer. -/
structure Collaborators where
  writeCrashLogOk : Bool
  writeCrashLogPath : List Char
  writeSavegameOk : Bool
  writeSavegamePath : List Char
  writeScreenshotOk : Bool
  writeScreenshotPath : List Char
deriving DecidableEq

/-- The three filename buffers of `CrashLogOSX`
(crashlog_osx.cpp lines 50-52). -/
structure ArtifactState where
  filename_log : List Char
  filename_save : List Char
  filename_screenshot : List Char
deriving DecidableEq

/-- The `CrashLogOSX` constructor (crashlog_osx.cpp lines 159-164):
all three filename buffers start as the empty string. -/
def crashLogConstruct : ArtifactState :=
  ⟨[], [], []⟩

/-- `CrashLogOSX::MakeCrashLog` (crashlog_osx.cpp lines 167-196)
restricted to its artifact bookkeeping: each of the three writers is
invoked unconditionally in order; a failed write resets its filename
buffer to the empty string and clears the overall result flag. -/
def makeCrashLog (c : Collaborators) : Bool × ArtifactState :=
  let ret := true
  let filename_log :=
    if c.writeCrashLogOk then c.writeCrashLogPath else []
  let ret := ret && c.writeCrashLogOk
  let filename_save :=
    if c.writeSavegameOk then c.writeSavegamePath else []
  let ret := ret && c.writeSavegameOk
  let filename_screenshot :=
    if c.writeScreenshotOk then c.writeScreenshotPath else []
  let ret := ret && c.writeScreenshotOk
  (ret, ⟨filename_log, filename_save, filename_screenshot⟩)

/-- Observable calls made by `HandleCrash` and the routines it drives,
in execution order. -/
inductive Event where
  | restoreSignal (signum : Nat)
  | gamelogTestEmergencyQuery
  | saveloadMissingNewGRFsQuery
  | showMacDialog (title message : List Char)
  | fillCrashLogCall
  | writeCrashLogCall
  | writeSavegameCall
  | writeScreenshotCall
  | afterCrashLogCleanup
  | abortCall
deriving DecidableEq

/-- Whether an event is a `signal(sig, SIG_DFL)` restoration. -/
def Event.isRestore : Event → Bool
  | .restoreSignal _ => true
  | _ => false

/-- Whether an event is a call into report composition
(`FillCrashLog`, the ReportBuilder) or artifact writing
(`WriteCrashLog` / `WriteSavegame` / `WriteScreenshot`,
the ArtifactWriter). -/
def Event.isReportOrArtifactCall : Event → Bool
  | .fillCrashLogCall => true
  | .writeCrashLogCall => true
  | .writeSavegameCall => true
  | .writeScreenshotCall => true
  | _ => false

/-- Whether an event is a `ShowMacDialog` call (the notification
presenter collaborator). -/
def Event.isShowMacDialog : Event → Bool
  | .showMacDialog _ _ => true
  | _ => false

/-- `_signals_to_handle` (crashlog_osx.cpp line 216) with the macOS
signal numbers, in source order: SIGSEGV, SIGABRT, SIGFPE, SIGBUS,
SIGILL, SIGSYS. -/
def signalsToHandle : List Nat := [11, 6, 8, 10, 4, 12]

/-- Environment fixing the answers of the external collaborators
consulted by `HandleCrash`: the two emergency predicates, the video
driver query, and the three artifact writers. -/
structure CrashEnv where
  gamelogEmergency : Bool
  missingNewGRFs : Bool
  videoDriverPresent : Bool
  videoDriverHasGUI : Bool
  collab : Collaborators
deriving DecidableEq

/-- Dialog title used on every `ShowMacDialog` call of this file
(crashlog_osx.cpp lines 201-202, 231, 238). -/
def crashTitle : List Char :=
  "A serious fault condition occurred in the game. The game will shut down.".toList

/-- Message shown when `GamelogTestEmergency()` is true
(crashlog_osx.cpp line 232). -/
def emergencyMessage : List Char :=
  "As you loaded an emergency savegame no crash information will be generated.\n".toList

/-- Message shown when `SaveloadCrashWithMissingNewGRFs()` is true
(crashlog_osx.cpp line 239). -/
def missingNewGRFsMessage : List Char :=
  "As you loaded an savegame for which you do not have the required NewGRFs no crash information will be generated.\n".toList

/-- The fixed text preceding the generated file list in
`CrashLogOSX::DisplayCrashDialog` (crashlog_osx.cpp lines 206-208). -/
def dialogBase : List Char :=
  "Please send the generated crash information and the last (auto)save to the developers. This will greatly help debugging. The correct place to do this is https://github.com/OpenTTD/OpenTTD/issues.\n\nGenerated file(s):\n".toList

/-- The message composed by `CrashLogOSX::DisplayCrashDialog`
(crashlog_osx.cpp lines 204-209): `seprintf` into `char message[1024]`
with `lastof(message)`, so at most 1023 characters survive. -/
def dialogMessage (st : ArtifactState) : List Char :=
  (dialogBase ++ st.filename_log ++ "\n".toList ++ st.filename_save
    ++ "\n".toList ++ st.filename_screenshot).take 1023

/-- `HandleCrash` (crashlog_osx.cpp lines 223-252) as the ordered list
of observable collaborator calls it makes in the given environment. -/
def handleCrashTrace (env : CrashEnv) (_signum : Nat) : List Event :=
  signalsToHandle.map Event.restoreSignal ++
  (Event.gamelogTestEmergencyQuery ::
    (if env.gamelogEmergency then
      [Event.showMacDialog crashTitle emergencyMessage, Event.abortCall]
    else
      Event.saveloadMissingNewGRFsQuery ::
        (if env.missingNewGRFs then
          [Event.showMacDialog crashTitle missingNewGRFsMessage,
           Event.abortCall]
        else
          [Event.fillCrashLogCall, Event.writeCrashLogCall,
           Event.writeSavegameCall, Event.writeScreenshotCall] ++
          (if !env.videoDriverPresent || env.videoDriverHasGUI then
            [Event.showMacDialog crashTitle
              (dialogMessage (makeCrashLog env.collab).2)]
          else []) ++
          [Event.afterCrashLogCleanup, Event.abortCall])))

/-- The collaborator contract of spec section 6: the snapshot and
screenshot writers fill the path buffer on success, so a successful
write leaves a non-empty path. -/
def nonEmptyOnSuccess (c : Collaborators) : Prop :=
  (c.writeCrashLogOk = true → c.writeCrashLogPath ≠ [])
  ∧ (c.writeSavegameOk = true → c.writeSavegamePath ≠ [])
  ∧ (c.writeScreenshotOk = true → c.writeScreenshotPath ≠ [])

/-- The number of artifact-writing collaborators that fail. -/
def failCount (c : Collaborators) : Nat :=
  (if c.writeCrashLogOk then 0 else 1)
    + (if c.writeSavegameOk then 0 else 1)
    + (if c.writeScreenshotOk then 0 else 1)

/-- The number of empty filename buffers in the descriptor set. -/
def emptyPathCount (st : ArtifactState) : Nat :=
  (if st.filename_log = [] then 1 else 0)
    + (if st.filename_save = [] then 1 else 0)
    + (if st.filename_screenshot = [] then 1 else 0)

/-- The number of non-empty filename buffers in the descriptor set. -/
def nonEmptyPathCount (st : ArtifactState) : Nat :=
  (if st.filename_log = [] then 0 else 1)
    + (if st.filename_save = [] then 0 else 1)
    + (if st.filename_screenshot = [] then 0 else 1)

/-- An environment where both emergency predicates are false, the
video driver has a GUI, the crash-log and screenshot writes succeed
and the savegame write fails. -/
def envEx : CrashEnv :=
  ⟨false, false, true, true,
    ⟨true, "crash.log".toList, false, "crash.sav".toList,
     true, "crash.png".toList⟩⟩

/-- An environment where the emergency-savegame predicate fires. -/
def envSkipEx : CrashEnv :=
  ⟨true, false, true, true,
    ⟨true, "crash.log".toList, true, "crash.sav".toList,
     true, "crash.png".toList⟩⟩

/-- A concrete `dladdr` stand-in: address 5 resolves to symbol `sym`
of module `/usr/lib/libc.dylib` starting at address 9 (above the
resolved address, as corrupted data can produce); address 7 resolves
to a module without symbol information; everything else is
unresolved. -/
def resolveEx (a : Nat) : Option DlInfo :=
  if a = 5 then
    some ⟨some "/usr/lib/libc.dylib".toList, some "sym".toList, some 9⟩
  else if a = 7 then
    some ⟨some "/usr/lib/libc.dylib".toList, none, some 9⟩
  else none

/-- A demangler that always fails, as `abi::__cxa_demangle` does on
any name that is not a mangled C++ symbol. -/
def demangleNone (_s : List Char) : Option (List Char) :=
  none

theorem strrchrSuffix_no_slash (l : List Char) :
    ∀ c ∈ strrchrSuffix l, c ≠ '/' := by
  intro c hc
  rw [strrchrSuffix, List.mem_reverse] at hc
  have := List.mem_takeWhile_imp hc
  simpa using this

theorem strrchrSuffix_is_suffix (l : List Char) :
    ∃ pre, pre ++ strrchrSuffix l = l := by
  refine ⟨(l.reverse.dropWhile (fun c => c ≠ '/')).reverse, ?_⟩
  rw [strrchrSuffix, ← List.reverse_append,
    List.takeWhile_append_dropWhile, List.reverse_reverse]

theorem wrapSigned64_eq_self (z : Int) (h1 : -(2 ^ 63) ≤ z)
    (h2 : z < 2 ^ 63) : wrapSigned64 z = z := by
  unfold wrapSigned64
  have hmod : (z + 2 ^ 63) % 2 ^ 64 = z + 2 ^ 63 := by
    apply Int.emod_eq_of_lt <;> omega
  omega

theorem walkFrames_length_le (mem : Nat → Nat) (aligned : Nat → Bool)
    (ws : Nat) : ∀ fuel frame, (walkFrames mem aligned ws fuel frame).length ≤ fuel := by
  intro fuel
  induction fuel with
  | zero => intro frame; simp [walkFrames]
  | succ n ih =>
      intro frame
      match frame with
      | 0 => simp [walkFrames]
      | f + 1 =>
          simp only [walkFrames]
          split
          · simp
          · split
            · simp
            · simpa using Nat.succ_le_succ (ih _)

theorem seprintfAppend_take (cap : Nat) (x y : List Char) :
    seprintfAppend cap (x.take cap) y = (x ++ y).take cap := by
  unfold seprintfAppend
  rcases Nat.le_total x.length cap with h | h
  · rw [List.take_of_length_le h]
  · rw [List.take_append_eq_append_take, List.take_append_eq_append_take]
    have h1 : (x.take cap).length = cap := by
      simp [List.length_take, Nat.min_eq_left h]
    have h2 : (x.take cap).take cap = x.take cap := by
      apply List.take_of_length_le
      simp [h1]
    rw [h2, h1]
    have h3 : cap - cap = 0 := Nat.sub_self cap
    have h4 : cap - x.length = 0 := Nat.sub_eq_zero_of_le h
    rw [h3, h4]

theorem fillCrashLog_eq_take (cap : Nat) (sections : List (List Char)) :
    fillCrashLog cap sections = sections.flatten.take cap := by
  have key : ∀ (ss : List (List Char)) (acc : List Char),
      ss.foldl (fun a s => seprintfAppend cap a s) (acc.take cap)
        = (acc ++ ss.flatten).take cap := by
    intro ss
    induction ss with
    | nil => intro acc; simp
    | cons s rest ih =>
        intro acc
        simp only [List.foldl_cons, List.flatten_cons]
        rw [seprintfAppend_take cap acc s, ih (acc ++ s)]
        simp
  have h0 : (([] : List Char)).take cap = ([] : List Char) := by simp
  have := key sections []
  rw [h0] at this
  simpa using this

/-- C1: in `HandleCrash`, restoring every registered signal to its
default disposition is the first action performed: the first six
trace events are exactly the `signal(sig, SIG_DFL)` calls for the six
registered signals in registration order, and no restoration event —
and hence no other kind of event before one — occurs anywhere later,
so the EmergencyGuard predicates, report composition and artifact
writing all strictly follow the complete restoration. -/
theorem C1_restore_signals_first (env : CrashEnv) (signum : Nat) :
    (handleCrashTrace env signum).take 6
        = signalsToHandle.map Event.restoreSignal
    ∧ ∀ e ∈ (handleCrashTrace env signum).drop 6,
        Event.isRestore e = false := by
  constructor
  · rw [handleCrashTrace]
    exact List.take_left' (by decide)
  · rw [handleCrashTrace, List.drop_left' (by decide)]
    intro e he
    rcases env with ⟨ge, mg, vp, gui, collab⟩
    cases ge <;> cases mg <;> cases vp <;> cases gui <;>
      simp only [Bool.false_eq_true, if_false, if_true, Bool.not_false,
        Bool.not_true, Bool.false_or, Bool.true_or, Bool.or_false,
        Bool.or_true, List.mem_cons, List.mem_append,
        List.mem_singleton, List.not_mem_nil, or_false, false_or] at he <;>
      casesm* _ ∨ _ <;> subst_vars <;> rfl

/-- Witness for C1 at a concrete environment. -/
theorem C1_restore_signals_first_w :
    (handleCrashTrace envEx 11).take 6
        = signalsToHandle.map Event.restoreSignal
    ∧ Event.isRestore Event.abortCall = false :=
  ⟨(C1_restore_signals_first envEx 11).1,
   (C1_restore_signals_first envEx 11).2 Event.abortCall (by decide)⟩

/-- C2: the stack walk emits at most `MAX_STACK_FRAMES` (64) return
addresses; a null return address ends the sequence with no further
entry; a previous-frame pointer that is not strictly greater than the
current one, or that fails the platform alignment check, ends the
sequence right after the current entry; and on the synthetic cyclic
chain `cycleMem` (frame 4 linking back to frame 2) the walk terminates
with exactly the four entries, so the printed indices run 0..3 and the
walk does not loop. -/
theorem C2_stack_walk_terminates (mem : Nat → Nat) (aligned : Nat → Bool)
    (ws fuel frame start : Nat) (hf : frame ≠ 0) :
    (walkFrames mem aligned ws MAX_STACK_FRAMES start).length
        ≤ MAX_STACK_FRAMES
    ∧ (mem (frame + ws) = 0 →
        walkFrames mem aligned ws (fuel + 1) frame = [])
    ∧ (mem (frame + ws) ≠ 0 →
        (mem frame ≤ frame ∨ aligned (mem frame) = false) →
        walkFrames mem aligned ws (fuel + 1) frame = [mem (frame + ws)])
    ∧ walkFrames cycleMem alignedLP64 8 MAX_STACK_FRAMES 16
        = [1001, 1002, 1003, 1004] := by
  obtain ⟨f, rfl⟩ : ∃ f, frame = f + 1 := ⟨frame - 1, by omega⟩
  refine ⟨walkFrames_length_le mem aligned ws MAX_STACK_FRAMES start,
    ?_, ?_, by decide⟩
  · intro h
    simp [walkFrames, h]
  · intro h1 h2
    simp only [walkFrames]
    rw [if_neg h1, if_pos h2]

/-- Witness for C2: the cyclic chain instantiates the bound, the
null-return-address case (frame pointer 100 reads return address 0)
and the broken-link case (frame pointer 64 links back to 32). -/
theorem C2_stack_walk_terminates_w :
    (walkFrames cycleMem alignedLP64 8 MAX_STACK_FRAMES 16).length
        ≤ MAX_STACK_FRAMES
    ∧ walkFrames cycleMem alignedLP64 8 1 100 = []
    ∧ walkFrames cycleMem alignedLP64 8 1 64 = [1004]
    ∧ walkFrames cycleMem alignedLP64 8 MAX_STACK_FRAMES 16
        = [1001, 1002, 1003, 1004] := by
  have h1 := C2_stack_walk_terminates cycleMem alignedLP64 8 0 100 16
    (by decide)
  have h2 := C2_stack_walk_terminates cycleMem alignedLP64 8 0 64 16
    (by decide)
  exact ⟨h1.1, h1.2.1 (by decide), h2.2.2.1 (by decide) (by decide),
    h2.2.2.2⟩

/-- C3: every report-composition write goes through the bounded
append primitive, so for every sequence of section writes the
composed content is exactly the truncation of the unbounded
concatenation to the buffer capacity: its length never exceeds the
capacity (no out-of-bounds write), it equals exactly the capacity as
soon as the total content overflows, and the primitive itself always
returns a buffer within capacity (overflow never signals failure). -/
theorem C3_composition_truncates (cap : Nat) (sections : List (List Char)) :
    fillCrashLog cap sections = sections.flatten.take cap
    ∧ (fillCrashLog cap sections).length = min cap sections.flatten.length
    ∧ (cap ≤ sections.flatten.length →
        (fillCrashLog cap sections).length = cap)
    ∧ ∀ acc s : List Char, (seprintfAppend cap acc s).length ≤ cap := by
  have heq := fillCrashLog_eq_take cap sections
  refine ⟨heq, ?_, ?_, ?_⟩
  · rw [heq, List.length_take]
  · intro h
    rw [heq, List.length_take]
    omega
  · intro acc s
    rw [seprintfAppend, List.length_take]
    omega

/-- Witness for C3: capacity 4 with sections of total length 6. -/
theorem C3_composition_truncates_w :
    fillCrashLog 4 ["abc".toList, "def".toList]
        = (["abc".toList, "def".toList]).flatten.take 4
    ∧ (fillCrashLog 4 ["abc".toList, "def".toList]).length = 4 := by
  have h := C3_composition_truncates 4 ["abc".toList, "def".toList]
  exact ⟨h.1, h.2.2.1 (by decide)⟩

/-- C4: `MakeCrashLog` attempts all three artifact operations
regardless of earlier outcomes (all three writer calls appear in the
trace for every collaborator outcome), returns true exactly when all
three writes succeeded, and with exactly one failing operation the
descriptor set holds exactly one failed entry (empty path) and two
successful entries with non-empty paths while the overall flag is
false. -/
theorem C4_persist_partial_failure (c : Collaborators) (vp gui : Bool)
    (signum : Nat) (h : nonEmptyOnSuccess c) :
    (Event.writeCrashLogCall
        ∈ handleCrashTrace ⟨false, false, vp, gui, c⟩ signum
      ∧ Event.writeSavegameCall
        ∈ handleCrashTrace ⟨false, false, vp, gui, c⟩ signum
      ∧ Event.writeScreenshotCall
        ∈ handleCrashTrace ⟨false, false, vp, gui, c⟩ signum)
    ∧ ((makeCrashLog c).1 = true ↔
        c.writeCrashLogOk = true ∧ c.writeSavegameOk = true
          ∧ c.writeScreenshotOk = true)
    ∧ (failCount c = 1 →
        emptyPathCount (makeCrashLog c).2 = 1
        ∧ nonEmptyPathCount (makeCrashLog c).2 = 2
        ∧ (makeCrashLog c).1 = false) := by
  refine ⟨?_, ?_, ?_⟩
  · cases vp <;> cases gui <;> simp [handleCrashTrace]
  · rcases c with ⟨o1, p1, o2, p2, o3, p3⟩
    cases o1 <;> cases o2 <;> cases o3 <;> simp [makeCrashLog]
  · rcases c with ⟨o1, p1, o2, p2, o3, p3⟩
    obtain ⟨h1, h2, h3⟩ := h
    intro hfc
    cases o1 <;> cases o2 <;> cases o3 <;>
      simp_all [makeCrashLog, failCount, emptyPathCount, nonEmptyPathCount]

/-- Witness for C4: the savegame write fails while the other two
writes succeed. -/
theorem C4_persist_partial_failure_w :
    Event.writeSavegameCall ∈ handleCrashTrace envEx 11
    ∧ emptyPathCount (makeCrashLog envEx.collab).2 = 1
    ∧ nonEmptyPathCount (makeCrashLog envEx.collab).2 = 2
    ∧ (makeCrashLog envEx.collab).1 = false := by
  have hne : nonEmptyOnSuccess envEx.collab :=
    ⟨fun _ => by decide, fun hsv => absurd hsv (by decide), fun _ => by decide⟩
  have h := C4_persist_partial_failure envEx.collab true true 11 hne
  have hone := h.2.2 (by decide)
  exact ⟨h.1.2.1, hone.1, hone.2.1, hone.2.2⟩

/-- C9: each filename buffer starts as the empty string at
construction, and after `MakeCrashLog` is non-empty exactly when the
corresponding artifact write succeeded; in particular a failed write
leaves its buffer reset to empty. -/
theorem C9_filename_buffer_invariant (c : Collaborators)
    (h : nonEmptyOnSuccess c) :
    crashLogConstruct.filename_log = []
    ∧ crashLogConstruct.filename_save = []
    ∧ crashLogConstruct.filename_screenshot = []
    ∧ ((makeCrashLog c).2.filename_log ≠ [] ↔ c.writeCrashLogOk = true)
    ∧ ((makeCrashLog c).2.filename_save ≠ [] ↔ c.writeSavegameOk = true)
    ∧ ((makeCrashLog c).2.filename_screenshot ≠ []
        ↔ c.writeScreenshotOk = true)
    ∧ (c.writeCrashLogOk = false → (makeCrashLog c).2.filename_log = [])
    ∧ (c.writeSavegameOk = false → (makeCrashLog c).2.filename_save = [])
    ∧ (c.writeScreenshotOk = false →
        (makeCrashLog c).2.filename_screenshot = []) := by
  rcases c with ⟨o1, p1, o2, p2, o3, p3⟩
  obtain ⟨h1, h2, h3⟩ := h
  cases o1 <;> cases o2 <;> cases o3 <;>
    simp_all [makeCrashLog, crashLogConstruct]

/-- Witness for C9 with the savegame write failing. -/
theorem C9_filename_buffer_invariant_w :
    ((makeCrashLog envEx.collab).2.filename_log ≠ []
      ↔ envEx.collab.writeCrashLogOk = true)
    ∧ (makeCrashLog envEx.collab).2.filename_save = [] := by
  have hne : nonEmptyOnSuccess envEx.collab :=
    ⟨fun _ => by decide, fun hsv => absurd hsv (by decide), fun _ => by decide⟩
  have h := C9_filename_buffer_invariant envEx.collab hne
  exact ⟨h.2.2.2.1, h.2.2.2.2.2.2.2.1 rfl⟩

/-- C5: when an EmergencyGuard predicate fires (emergency savegame or
missing NewGRFs), the handler trace contains zero report-composition
or artifact-writing calls, exactly one `ShowMacDialog` call, and ends
with that dialog immediately followed by the terminating abort. -/
theorem C5_emergency_skip (env : CrashEnv) (signum : Nat)
    (h : env.gamelogEmergency = true ∨ env.missingNewGRFs = true) :
    (handleCrashTrace env signum).countP Event.isReportOrArtifactCall = 0
    ∧ (handleCrashTrace env signum).countP Event.isShowMacDialog = 1
    ∧ ∃ pre title msg, handleCrashTrace env signum
        = pre ++ [Event.showMacDialog title msg, Event.abortCall] := by
  rcases env with ⟨ge, mg, vp, gui, collab⟩
  cases ge with
  | true =>
      have htr : handleCrashTrace ⟨true, mg, vp, gui, collab⟩ signum
          = signalsToHandle.map Event.restoreSignal
            ++ [Event.gamelogTestEmergencyQuery,
                Event.showMacDialog crashTitle emergencyMessage,
                Event.abortCall] := by
        simp [handleCrashTrace]
      refine ⟨by rw [htr]; decide, by rw [htr]; decide,
        signalsToHandle.map Event.restoreSignal
          ++ [Event.gamelogTestEmergencyQuery],
        crashTitle, emergencyMessage, by rw [htr]; simp⟩
  | false =>
      cases mg with
      | true =>
          have htr : handleCrashTrace ⟨false, true, vp, gui, collab⟩ signum
              = signalsToHandle.map Event.restoreSignal
                ++ [Event.gamelogTestEmergencyQuery,
                    Event.saveloadMissingNewGRFsQuery,
                    Event.showMacDialog crashTitle missingNewGRFsMessage,
                    Event.abortCall] := by
            simp [handleCrashTrace]
          refine ⟨by rw [htr]; decide, by rw [htr]; decide,
            signalsToHandle.map Event.restoreSignal
              ++ [Event.gamelogTestEmergencyQuery,
                  Event.saveloadMissingNewGRFsQuery],
            crashTitle, missingNewGRFsMessage, by rw [htr]; simp⟩
      | false => simp at h

/-- Witness for C5 at the emergency-savegame environment. -/
theorem C5_emergency_skip_w :
    (handleCrashTrace envSkipEx 11).countP Event.isReportOrArtifactCall = 0
    ∧ (handleCrashTrace envSkipEx 11).countP Event.isShowMacDialog = 1 := by
  have h := C5_emergency_skip envSkipEx 11 (Or.inl rfl)
  exact ⟨h.1, h.2.1⟩

/-- C10: on the full-report path the cleanup hook runs exactly once,
after all three artifact-writing calls and immediately before the
terminating abort; on both EmergencyGuard skip paths the process
terminates by abort without the cleanup hook ever being invoked. -/
theorem C10_cleanup_once (env : CrashEnv) (signum : Nat) :
    (env.gamelogEmergency = false → env.missingNewGRFs = false →
      ∃ pre, handleCrashTrace env signum
          = pre ++ [Event.afterCrashLogCleanup, Event.abortCall]
        ∧ (handleCrashTrace env signum).count Event.afterCrashLogCleanup = 1
        ∧ Event.writeCrashLogCall ∈ pre
        ∧ Event.writeSavegameCall ∈ pre
        ∧ Event.writeScreenshotCall ∈ pre)
    ∧ ((env.gamelogEmergency = true ∨ env.missingNewGRFs = true) →
        Event.afterCrashLogCleanup ∉ handleCrashTrace env signum
        ∧ (handleCrashTrace env signum).getLast? = some Event.abortCall) := by
  rcases env with ⟨ge, mg, vp, gui, collab⟩
  constructor
  · intro hge hmg
    subst hge; subst hmg
    refine ⟨signalsToHandle.map Event.restoreSignal
        ++ [Event.gamelogTestEmergencyQuery,
            Event.saveloadMissingNewGRFsQuery,
            Event.fillCrashLogCall, Event.writeCrashLogCall,
            Event.writeSavegameCall, Event.writeScreenshotCall]
        ++ (if !vp || gui then
              [Event.showMacDialog crashTitle
                (dialogMessage (makeCrashLog collab).2)]
            else []), ?_, ?_, ?_, ?_, ?_⟩
    · cases hb : (!vp || gui) <;> simp [handleCrashTrace, hb]
    · cases hb : (!vp || gui) <;>
        simp [handleCrashTrace, hb, signalsToHandle, List.count_append,
          List.count_cons]
    · simp
    · simp
    · simp
  · intro h
    cases ge with
    | true =>
        have htr : handleCrashTrace ⟨true, mg, vp, gui, collab⟩ signum
            = signalsToHandle.map Event.restoreSignal
              ++ [Event.gamelogTestEmergencyQuery,
                  Event.showMacDialog crashTitle emergencyMessage,
                  Event.abortCall] := by
          simp [handleCrashTrace]
        rw [htr]
        exact ⟨by decide, by decide⟩
    | false =>
        cases mg with
        | true =>
            have htr : handleCrashTrace ⟨false, true, vp, gui, collab⟩ signum
                = signalsToHandle.map Event.restoreSignal
                  ++ [Event.gamelogTestEmergencyQuery,
                      Event.saveloadMissingNewGRFsQuery,
                      Event.showMacDialog crashTitle missingNewGRFsMessage,
                      Event.abortCall] := by
              simp [handleCrashTrace]
            rw [htr]
            exact ⟨by decide, by decide⟩
        | false => simp at h

/-- Witness for C10: full-report path with a GUI present. -/
theorem C10_cleanup_once_w :
    (handleCrashTrace envEx 11).count Event.afterCrashLogCleanup = 1
    ∧ Event.afterCrashLogCleanup ∉ handleCrashTrace envSkipEx 11 := by
  have h1 := (C10_cleanup_once envEx 11).1 rfl rfl
  have h2 := (C10_cleanup_once envSkipEx 11).2 (Or.inl rfl)
  obtain ⟨pre, _, hcount, _⟩ := h1
  exact ⟨hcount, h2.1⟩

/-- C6: for a resolved symbol hit, the offset carried by the rendered
line is exactly `address - symbolStart` in signed integer arithmetic
(for addresses in the signed 64-bit range), and it is negative
whenever the address lies below the nearest known symbol start. -/
theorem C6_offset_signed_exact (resolve : Nat → Option DlInfo)
    (demangle : List Char → Option (List Char)) (i ip sa : Nat)
    (sn : List Char) (dli : DlInfo)
    (hres : resolve ip = some dli) (hsn : dli.sname = some sn)
    (hsa : dli.saddr = some sa) (hip : ip < 2 ^ 63)
    (hsa63 : sa < 2 ^ 63) :
    ((makeTraceLine resolve demangle i ip).symbol.map (fun p => p.2))
        = some ((ip : Int) - (sa : Int))
    ∧ (ip < sa → (ip : Int) - (sa : Int) < 0) := by
  constructor
  · have hoff : frameOffset ip sa = (ip : Int) - (sa : Int) := by
      unfold frameOffset
      apply wrapSigned64_eq_self <;> omega
    rcases dli with ⟨fn, snf, saf⟩
    simp only at hsn hsa
    subst hsn; subst hsa
    cases hdem : demangle sn <;>
      simp [makeTraceLine, hres, hdem, hoff]
  · intro hlt
    omega

/-- Witness for C6: address 5 resolves to a symbol starting at 9, so
the rendered offset is the negative value -4. -/
theorem C6_offset_signed_exact_w :
    ((makeTraceLine resolveEx demangleNone 0 5).symbol.map (fun p => p.2))
        = some (-4)
    ∧ ((5 : Int) - (9 : Int) < 0) := by
  have h := C6_offset_signed_exact resolveEx demangleNone 0 5 9
    "sym".toList
    ⟨some "/usr/lib/libc.dylib".toList, some "sym".toList, some 9⟩
    rfl rfl rfl (by norm_num) (by norm_num)
  exact ⟨h.1.trans (by norm_num), h.2 (by norm_num)⟩

/-- C7: each trace line shows the module reduced to its final path
component (a slash-free suffix of the image path), or the placeholder
when no module is resolved; an address with no known symbol carries no
symbol/offset suffix; with a symbol, the demangled name is used when
demangling succeeds and the raw symbol name when it fails, and the
rendering is total so a demangling failure never aborts the trace. -/
theorem C7_module_and_symbol_rendering (resolve : Nat → Option DlInfo)
    (demangle : List Char → Option (List Char)) (i ip : Nat) :
    (resolve ip = none →
      (makeTraceLine resolve demangle i ip).moduleName = "???".toList
      ∧ (makeTraceLine resolve demangle i ip).symbol = none)
    ∧ (∀ dli, resolve ip = some dli →
        (dli.fname = none →
          (makeTraceLine resolve demangle i ip).moduleName = "???".toList)
        ∧ (∀ f, dli.fname = some f →
            (makeTraceLine resolve demangle i ip).moduleName
              = strrchrSuffix f
            ∧ (∀ c ∈ strrchrSuffix f, c ≠ '/')
            ∧ ∃ pre, pre ++ strrchrSuffix f = f)
        ∧ ((dli.sname = none ∨ dli.saddr = none) →
            (makeTraceLine resolve demangle i ip).symbol = none)
        ∧ (∀ sn sa, dli.sname = some sn → dli.saddr = some sa →
            (∀ d, demangle sn = some d →
              (makeTraceLine resolve demangle i ip).symbol
                = some (d, frameOffset ip sa))
            ∧ (demangle sn = none →
              (makeTraceLine resolve demangle i ip).symbol
                = some (sn, frameOffset ip sa)))) := by
  constructor
  · intro h
    exact ⟨by simp [makeTraceLine, h], by simp [makeTraceLine, h]⟩
  · intro dli hres
    rcases dli with ⟨fn, snf, saf⟩
    refine ⟨?_, ?_, ?_, ?_⟩
    · intro hfn
      simp only at hfn
      subst hfn
      simp [makeTraceLine, hres]
    · intro f hfn
      simp only at hfn
      subst hfn
      exact ⟨by simp [makeTraceLine, hres],
        strrchrSuffix_no_slash f, strrchrSuffix_is_suffix f⟩
    · intro h
      rcases h with h | h <;> simp only at h <;> subst h
      · simp [makeTraceLine, hres]
      · cases snf <;> simp [makeTraceLine, hres]
    · intro sn sa hsn hsa
      simp only at hsn hsa
      subst hsn; subst hsa
      constructor
      · intro d hdem
        simp [makeTraceLine, hres, hdem]
      · intro hdem
        simp [makeTraceLine, hres, hdem]

/-- Witness for C7: address 7 resolves to a module but to no symbol,
so the line shows the final path component and no symbol suffix. -/
theorem C7_module_and_symbol_rendering_w :
    (makeTraceLine resolveEx demangleNone 1 7).moduleName
        = "libc.dylib".toList
    ∧ (makeTraceLine resolveEx demangleNone 1 7).symbol = none := by
  have h := (C7_module_and_symbol_rendering resolveEx demangleNone 1 7).2
    ⟨some "/usr/lib/libc.dylib".toList, none, some 9⟩ rfl
  refine ⟨((h.2.1 "/usr/lib/libc.dylib".toList rfl).1).trans (by decide),
    h.2.2.1 (Or.inl rfl)⟩

set_option maxRecDepth 8192 in
theorem dialogMessage_eq_of_short (st : ArtifactState)
    (h1 : st.filename_log.length ≤ 259)
    (h2 : st.filename_save.length ≤ 259)
    (h3 : st.filename_screenshot.length ≤ 259) :
    dialogMessage st = dialogBase ++ st.filename_log ++ "\n".toList
      ++ st.filename_save ++ "\n".toList ++ st.filename_screenshot := by
  unfold dialogMessage
  apply List.take_of_length_le
  have hbase : dialogBase.length = 216 := by decide
  have hnl : ("\n".toList).length = 1 := by decide
  simp only [List.length_append, hbase, hnl]
  omega

/-- C8: on the full-report path, whenever the notification collaborator
is invoked (no video driver, or one with a GUI) its message carries the
path of every successfully written artifact even when other writes
failed; and on both EmergencyGuard skip paths, the single notification
explicitly states that no crash information will be generated. -/
theorem C8_user_told (env : CrashEnv) (signum : Nat)
    (h1 : env.collab.writeCrashLogPath.length ≤ 259)
    (h2 : env.collab.writeSavegamePath.length ≤ 259)
    (h3 : env.collab.writeScreenshotPath.length ≤ 259) :
    (env.gamelogEmergency = false → env.missingNewGRFs = false →
      (env.videoDriverPresent = false ∨ env.videoDriverHasGUI = true) →
      Event.showMacDialog crashTitle
          (dialogMessage (makeCrashLog env.collab).2)
        ∈ handleCrashTrace env signum
      ∧ (env.collab.writeCrashLogOk = true →
          env.collab.writeCrashLogPath
            <:+: dialogMessage (makeCrashLog env.collab).2)
      ∧ (env.collab.writeSavegameOk = true →
          env.collab.writeSavegamePath
            <:+: dialogMessage (makeCrashLog env.collab).2)
      ∧ (env.collab.writeScreenshotOk = true →
          env.collab.writeScreenshotPath
            <:+: dialogMessage (makeCrashLog env.collab).2))
    ∧ ((env.gamelogEmergency = true ∨ env.missingNewGRFs = true) →
        ∃ msg, Event.showMacDialog crashTitle msg
            ∈ handleCrashTrace env signum
          ∧ "no crash information will be generated".toList <:+: msg) := by
  rcases env with ⟨ge, mg, vp, gui, collab⟩
  simp only at h1 h2 h3
  constructor
  · intro hge hmg hvg
    subst hge; subst hmg
    set st := (makeCrashLog collab).2 with hst
    have hl1 : st.filename_log.length ≤ 259 := by
      rw [hst]
      rcases collab with ⟨o1, p1, o2, p2, o3, p3⟩
      cases o1 <;> simp_all [makeCrashLog]
    have hl2 : st.filename_save.length ≤ 259 := by
      rw [hst]
      rcases collab with ⟨o1, p1, o2, p2, o3, p3⟩
      cases o2 <;> simp_all [makeCrashLog]
    have hl3 : st.filename_screenshot.length ≤ 259 := by
      rw [hst]
      rcases collab with ⟨o1, p1, o2, p2, o3, p3⟩
      cases o3 <;> simp_all [makeCrashLog]
    have hmsg := dialogMessage_eq_of_short st hl1 hl2 hl3
    refine ⟨?_, ?_, ?_, ?_⟩
    · rcases hvg with hvp | hgui
      · subst hvp; simp [handleCrashTrace]
      · subst hgui; simp [handleCrashTrace]
    · intro hok
      have hok2 : collab.writeCrashLogOk = true := hok
      have hlog : st.filename_log = collab.writeCrashLogPath := by
        rw [hst]; simp [makeCrashLog, hok2]
      rw [hmsg, ← hlog]
      exact ⟨dialogBase,
        "\n".toList ++ st.filename_save ++ "\n".toList
          ++ st.filename_screenshot, by simp⟩
    · intro hok
      have hok2 : collab.writeSavegameOk = true := hok
      have hsave : st.filename_save = collab.writeSavegamePath := by
        rw [hst]; simp [makeCrashLog, hok2]
      rw [hmsg, ← hsave]
      exact ⟨dialogBase ++ st.filename_log ++ "\n".toList,
        "\n".toList ++ st.filename_screenshot, by simp⟩
    · intro hok
      have hok2 : collab.writeScreenshotOk = true := hok
      have hshot : st.filename_screenshot = collab.writeScreenshotPath := by
        rw [hst]; simp [makeCrashLog, hok2]
      rw [hmsg, ← hshot]
      exact ⟨dialogBase ++ st.filename_log ++ "\n".toList
          ++ st.filename_save ++ "\n".toList, [], by simp⟩
  · intro h
    cases ge with
    | true =>
        refine ⟨emergencyMessage, ?_, ?_⟩
        · simp [handleCrashTrace]
        · exact ⟨"As you loaded an emergency savegame ".toList,
            ".\n".toList, by decide⟩
    | false =>
        cases mg with
        | true =>
            refine ⟨missingNewGRFsMessage, ?_, ?_⟩
            · simp [handleCrashTrace]
            · refine ⟨"As you loaded an savegame for which you do not have the required NewGRFs ".toList,
                ".\n".toList, by decide⟩
        | false => simp at h

/-- Witness for C8: with the savegame write failing, the dialog still
lists the successfully written crash log; in the emergency-skip
environment the dialog says no crash information will be generated. -/
theorem C8_user_told_w :
    Event.showMacDialog crashTitle
        (dialogMessage (makeCrashLog envEx.collab).2)
      ∈ handleCrashTrace envEx 11
    ∧ "crash.log".toList <:+: dialogMessage (makeCrashLog envEx.collab).2
    ∧ ∃ msg, Event.showMacDialog crashTitle msg
        ∈ handleCrashTrace envSkipEx 11
      ∧ "no crash information will be generated".toList <:+: msg := by
  have ha := (C8_user_told envEx 11 (by decide) (by decide) (by decide)).1
    rfl rfl (Or.inr rfl)
  have hb := (C8_user_told envSkipEx 11 (by decide) (by decide)
    (by decide)).2 (Or.inl rfl)
  exact ⟨ha.1, ha.2.1 rfl, hb⟩
